import Mathlib

/-!
Shallow embedding of the SD/MMC storage driver and buffered append-log of
the DE2 data-logger firmware.

Sources embedded here:
* `lib/sdlog/sdlog.c` — buffered CSV logging module (`sd_log_append_line`,
  `sd_log_start`, `sd_log_stop`, `sd_log_init`), module state
  `sd_buffer[SD_BUFFER_SIZE]`, `sd_buf_pos`, `sd_logging`.
* `lib/pff/diskio.c` — low-level SD card driver over SPI (`send_cmd`,
  `disk_initialize`, `disk_readp`, `disk_writep`).

Modelling conventions: bytes are `Nat` reduced mod 256 where the C code
truncates; the SPI bus is a state carrying the list of bytes the card will
answer (consumed by `rcv_spi`, with 0xFF once exhausted — MISO idles high)
and a trace of bus events; the backend write wrappers of `sdlog.c`
(overridable weak symbols) are modelled by recording each write in a list
and by result-code parameters.
-/

namespace DE2

/-! ### sdlog.c : configuration constants (sdlog.h) -/

def SD_BUFFER_SIZE : Nat := 256
def SD_FLUSH_THRESHOLD : Nat := 128

/-- Module state of `sdlog.c`: the RAM buffer `sd_buffer` (a byte store
indexed by `Nat`, mirroring `char sd_buffer[SD_BUFFER_SIZE]`), the write
cursor `sd_buf_pos`, the public flag `sd_logging`, and the list of byte
records handed to the backend `sdcard_write` (in call order). -/
structure LogState where
  sd_logging : Bool
  sd_buf_pos : Nat
  sd_buffer : Nat → Nat
  writes : List (List Nat)

/-- Model of `memcpy(&sd_buffer[pos], line, line.length)`. -/
def writeBytes (buf : Nat → Nat) (pos : Nat) (line : List Nat) : Nat → Nat :=
  fun i => if pos ≤ i ∧ i < pos + line.length then line.getD (i - pos) 0 else buf i

/-- The first `st.sd_buf_pos` bytes of the buffer: the data passed by
`sdcard_write(sd_buffer, sd_buf_pos)`. -/
def bufContents (st : LogState) : List Nat :=
  (List.range st.sd_buf_pos).map st.sd_buffer

/-- Embedding of `sd_log_append_line` (sdlog.c lines 61–103), parameterised by the
already-formatted CSV record `line` (the bytes `snprintf` produced; the
empty list models the early return on `n <= 0`). -/
def sd_append (line : List Nat) (st : LogState) : LogState :=
  if line.length = 0 then st
  else if SD_BUFFER_SIZE ≤ line.length then
    -- single line larger than buffer capacity: write directly, only if logging
    if st.sd_logging then { st with writes := st.writes ++ [line] } else st
  else
    -- if not enough space in buffer, flush it first (pos reset even when closed)
    let st1 :=
      if SD_BUFFER_SIZE ≤ st.sd_buf_pos + line.length then
        if st.sd_logging ∧ 0 < st.sd_buf_pos then
          { st with writes := st.writes ++ [bufContents st], sd_buf_pos := 0 }
        else { st with sd_buf_pos := 0 }
      else st
    -- copy line into buffer, advance cursor
    let st2 := { st1 with
      sd_buffer := writeBytes st1.sd_buffer st1.sd_buf_pos line,
      sd_buf_pos := st1.sd_buf_pos + line.length }
    -- flush if threshold reached
    if st2.sd_logging ∧ SD_FLUSH_THRESHOLD ≤ st2.sd_buf_pos then
      { st2 with writes := st2.writes ++ [bufContents st2], sd_buf_pos := 0 }
    else st2

/-- Header written by `sd_log_start`: "time,temperature,pressure,humidity\n". -/
def sdHeader : List Nat :=
  ("time,temperature,pressure,humidity\n".toList).map Char.toNat

/-- Embedding of `sd_log_start` (sdlog.c lines 106–129). The results of the backend
calls `sdcard_init()` and `sdcard_open_append(SD_FILENAME)` are passed in
as `initRes` and `openRes` (0 means success). -/
def sd_log_start (initRes openRes : Int) (st : LogState) : Int × LogState :=
  if st.sd_logging then (0, st)
  else if initRes ≠ 0 then (-1, st)
  else if openRes ≠ 0 then (-2, st)
  else (0, { st with
    writes := st.writes ++ [sdHeader],
    sd_buf_pos := 0,
    sd_logging := true })

/-- Embedding of `sd_log_stop` (sdlog.c lines 132–145). -/
def sd_log_stop (st : LogState) : LogState :=
  if st.sd_logging = false then st
  else
    let st1 :=
      if 0 < st.sd_buf_pos then
        { st with writes := st.writes ++ [bufContents st], sd_buf_pos := 0 }
      else st
    { st1 with sd_logging := false }

/-- Embedding of `sd_log_init` (sdlog.c lines 52–58): resets the cursor, leaves
`sd_logging` unchanged. -/
def sd_log_init (st : LogState) : LogState :=
  { st with sd_buf_pos := 0 }

/-- One call into the sdlog module (the operations of the spec's append
sequences). -/
inductive LogOp where
  | append (line : List Nat)
  | start (initRes openRes : Int)
  | stop
  | init

def stepOp : LogOp → LogState → LogState
  | .append line, st => sd_append line st
  | .start i o, st => (sd_log_start i o st).2
  | .stop, st => sd_log_stop st
  | .init, st => sd_log_init st

def runOps (ops : List LogOp) (st : LogState) : LogState :=
  ops.foldl (fun s o => stepOp o s) st

/-- Power-on state of the module: logging inactive, cursor 0, buffer
zero-initialised (`static char sd_buffer[...]`), no writes issued. -/
def initLogState : LogState :=
  { sd_logging := false, sd_buf_pos := 0, sd_buffer := fun _ => 0, writes := [] }

/-! ### diskio.c : SPI bus model -/

/-- Observable events on the SPI bus / chip-select line, in order. -/
inductive SpiEvent where
  | xmit (b : Nat)
  | rcv (b : Nat)
  | sel
  | desel
deriving DecidableEq, Repr

/-- Bus state: `input` is the sequence of bytes the card will return on
successive `rcv_spi` calls (0xFF once exhausted — MISO idles high with no
card driving it); `trace` is the log of all bus events so far. -/
structure SpiState where
  input : List Nat
  trace : List SpiEvent

/-- Embedding of `rcv_spi` (diskio.c lines 130–135): clock one byte in. -/
def rcv_spi (s : SpiState) : Nat × SpiState :=
  match s.input with
  | [] => (0xFF, { s with trace := s.trace ++ [SpiEvent.rcv 0xFF] })
  | b :: rest => (b % 256, { input := rest, trace := s.trace ++ [SpiEvent.rcv (b % 256)] })

/-- Embedding of `xmit_spi` (diskio.c lines 118–122): clock one byte out. -/
def xmit_spi (b : Nat) (s : SpiState) : SpiState :=
  { s with trace := s.trace ++ [SpiEvent.xmit (b % 256)] }

/-- SELECT() macro: assert chip select. -/
def spiSelect (s : SpiState) : SpiState :=
  { s with trace := s.trace ++ [SpiEvent.sel] }

/-- DESELECT() macro: deassert chip select. -/
def spiDeselect (s : SpiState) : SpiState :=
  { s with trace := s.trace ++ [SpiEvent.desel] }

/-- Transmitted bytes of a trace (the `xmit` events, in order). -/
def xmits : List SpiEvent → List Nat
  | [] => []
  | SpiEvent.xmit b :: rest => b :: xmits rest
  | _ :: rest => xmits rest

/-! ### diskio.c : command protocol engine -/

/-- Card-type bit flags (diskio.c lines 66–69). -/
def CT_MMC : Nat := 0x01
def CT_SD1 : Nat := 0x02
def CT_SD2 : Nat := 0x04
def CT_BLOCK : Nat := 0x08

/-- Response-polling loop of `send_cmd` (diskio.c lines 182–185):
`n = 10; do { res = rcv_spi(); } while ((res & 0x80) && --n);`.
The argument is the remaining attempt count; a call with fuel `n ≥ 1`
performs at most `n` reads and returns the last byte read. -/
def pollR1 : Nat → SpiState → Nat × SpiState
  | 0, s => rcv_spi s
  | 1, s => rcv_spi s
  | n + 2, s =>
    let p := rcv_spi s
    if p.1 &&& 0x80 = 0 then p else pollR1 (n + 1) p.2

/-- Body of `send_cmd` after the ACMD prefix handling (diskio.c lines
161–187): select dance, 6-byte command packet with fixed checksum, CMD12
stuff byte, response polling. `cmd` is the command index with bit 7
already cleared; `arg` is the 32-bit argument (reduced mod 2^32). -/
def sendCmdCore (cmd arg : Nat) (s : SpiState) : Nat × SpiState :=
  let a := arg % 2 ^ 32
  let s := spiDeselect s
  let s := (rcv_spi s).2
  let s := spiSelect s
  let s := (rcv_spi s).2
  let s := xmit_spi (0x40 ||| cmd) s
  let s := xmit_spi (a / 2 ^ 24 % 256) s
  let s := xmit_spi (a / 2 ^ 16 % 256) s
  let s := xmit_spi (a / 2 ^ 8 % 256) s
  let s := xmit_spi (a % 256) s
  let crc := if cmd = 0 then 0x95 else if cmd = 8 then 0x87 else 0x01
  let s := xmit_spi crc s
  let s := if cmd = 12 then (rcv_spi s).2 else s
  pollR1 10 s

/-- Embedding of `send_cmd` (diskio.c lines 150–188). A command index with
bit 7 set (ACMD) first sends CMD55 with argument 0 and aborts with that
response if it exceeds 1. -/
def send_cmd (cmd arg : Nat) (s : SpiState) : Nat × SpiState :=
  if cmd &&& 0x80 ≠ 0 then
    let p := sendCmdCore 55 0 s
    if 1 < p.1 then p else sendCmdCore (cmd &&& 0x7F) arg p.2
  else sendCmdCore cmd arg s

/-! ### diskio.c : driver state and initialization -/

/-- Results of disk functions (diskio.h). -/
inductive DRESULT where
  | RES_OK
  | RES_ERROR
  | RES_NOTRDY
  | RES_PARERR
deriving DecidableEq, Repr

def STA_NOINIT : Nat := 0x01

/-- Driver module state: the static `CardType` of diskio.c, the static
write counter `wc` of `disk_writep`, and the SPI bus. -/
structure DiskState where
  cardType : Nat
  wc : Nat
  spi : SpiState

/-- Discard `n` received bytes (`rcv_spi()` called `n` times). -/
def skipBytes : Nat → SpiState → SpiState
  | 0, s => s
  | n + 1, s => skipBytes n (rcv_spi s).2

/-- Read `n` bytes, collecting them. -/
def readBytes : Nat → SpiState → List Nat × SpiState
  | 0, s => ([], s)
  | n + 1, s =>
    let p := rcv_spi s
    let q := readBytes n p.2
    (p.1 :: q.1, q.2)

/-- Initialization polling loop (diskio.c lines 239 and 258):
`for (tmr = 20000; tmr && send_cmd(cmd, arg); tmr--);`. Returns the final
value of `tmr` (0 on exhaustion) and sends at most `tmr` commands. -/
def initPoll (cmd arg : Nat) : Nat → SpiState → Nat × SpiState
  | 0, s => (0, s)
  | t + 1, s =>
    let p := send_cmd cmd arg s
    if p.1 = 0 then (t + 1, p.2) else initPoll cmd arg t p.2

/-- Embedding of `disk_initialize` (diskio.c lines 206–281). SPI register
configuration and the busy power-up delay have no protocol effect and are
not modelled; everything that touches the bus or `CardType` is. -/
def disk_initialize (ds : DiskState) : Nat × DiskState :=
  let s := spiDeselect ds.spi
  let s := skipBytes 100 s
  let p0 := send_cmd 0 0 s
  let r :=
    if p0.1 = 1 then
      let p8 := send_cmd 8 0x1AA p0.2
      if p8.1 = 1 then
        -- SDv2: read the 4 trailing echo bytes of the R7 response
        let e := readBytes 4 p8.2
        if e.1.getD 2 0 = 0x01 ∧ e.1.getD 3 0 = 0xAA then
          let t := initPoll (0x80 + 41) (2 ^ 30) 20000 e.2
          if t.1 ≠ 0 then
            let p58 := send_cmd 58 0 t.2
            if p58.1 = 0 then
              let o := readBytes 4 p58.2
              ((if o.1.getD 0 0 &&& 0x40 ≠ 0 then CT_SD2 ||| CT_BLOCK else CT_SD2), o.2)
            else (0, p58.2)
          else (0, t.2)
        else (0, e.2)
      else
        -- SDv1 or MMC
        let pa := send_cmd (0x80 + 41) 0 p8.2
        let ty0 := if pa.1 ≤ 1 then CT_SD1 else CT_MMC
        let cmd := if pa.1 ≤ 1 then 0x80 + 41 else 1
        let t := initPoll cmd 0 20000 pa.2
        if t.1 = 0 then (0, t.2)
        else
          let p16 := send_cmd 16 512 t.2
          ((if p16.1 ≠ 0 then 0 else ty0), p16.2)
    else (0, p0.2)
  let s2 := (rcv_spi (spiDeselect r.2)).2
  ((if r.1 ≠ 0 then 0 else STA_NOINIT), { ds with cardType := r.1, spi := s2 })

/-! ### diskio.c : block I/O primitives -/

/-- Data-token wait of `disk_readp` (diskio.c lines 306–307):
`bc = 30000; do { rc = rcv_spi(); } while (rc == 0xFF && --bc);`.
The argument is the remaining attempt count; at most that many reads. -/
def waitToken : Nat → SpiState → Nat × SpiState
  | 0, s => rcv_spi s
  | 1, s => rcv_spi s
  | n + 2, s =>
    let p := rcv_spi s
    if p.1 = 0xFF then waitToken (n + 1) p.2 else p

/-- Busy wait of the `disk_writep` finalize phase (diskio.c line 376):
`for (bc = 65000; rcv_spi() != 0xFF && bc; bc--);`. Returns the final
value of `bc` (0 on exhaustion). -/
def waitReady : Nat → SpiState → Nat × SpiState
  | 0, s => (0, (rcv_spi s).2)
  | b + 1, s =>
    let p := rcv_spi s
    if p.1 = 0xFF then (b + 1, p.2) else waitReady b p.2

/-- Embedding of `disk_readp` (diskio.c lines 295–330). `useBuff` mirrors
whether `buff` is non-NULL; the bytes stored through `buff` are returned
as a list (empty when `buff` is NULL and the data is discarded). `sector`
is a 32-bit DWORD, `offset`/`count` are 16-bit UINTs. The trailing-skip
count `512 + 2 - offset - count` is computed in 16-bit unsigned
arithmetic, and its `do but-check-after` loop runs 65536 times when that
value is 0. -/
def disk_readp (useBuff : Bool) (sector offset count : Nat) (ds : DiskState) :
    DRESULT × List Nat × DiskState :=
  if count = 0 then (DRESULT.RES_PARERR, [], ds)
  else
    let addr := if ds.cardType &&& CT_BLOCK = 0 then sector * 512 % 2 ^ 32 else sector % 2 ^ 32
    let p := send_cmd 17 addr ds.spi
    if p.1 = 0 then
      let t := waitToken 30000 p.2
      if t.1 = 0xFE then
        let bc := (512 + 2 + 2 * 65536 - offset % 65536 - count % 65536) % 65536
        let s1 := skipBytes (offset % 65536) t.2
        let q := readBytes (count % 65536) s1
        let s2 := skipBytes (if bc = 0 then 65536 else bc) q.2
        let s3 := (rcv_spi (spiDeselect s2)).2
        (DRESULT.RES_OK, (if useBuff then q.1 else []), { ds with spi := s3 })
      else
        let s3 := (rcv_spi (spiDeselect t.2)).2
        (DRESULT.RES_ERROR, [], { ds with spi := s3 })
    else
      let s3 := (rcv_spi (spiDeselect p.2)).2
      (DRESULT.RES_ERROR, [], { ds with spi := s3 })

/-- Transmit `n` zero bytes (the finalize padding loop
`while (bc--) xmit_spi(0);`). -/
def xmitZeros : Nat → SpiState → SpiState
  | 0, s => s
  | n + 1, s => xmitZeros n (xmit_spi 0 s)

/-- Transmit the first `n` bytes of `bytes` (the stream loop
`while (bc && wc) { xmit_spi(*buff++); wc--; bc--; }`). -/
def xmitList : List Nat → Nat → SpiState → SpiState
  | _, 0, s => s
  | [], _ + 1, s => s
  | b :: rest, n + 1, s => xmitList rest n (xmit_spi b s)

/-- Embedding of `disk_writep` (diskio.c lines 343–384), the three-phase
write protocol. `buff = some bytes` is the stream phase (`sc` is the byte
count, a 16-bit UINT after the cast); `buff = none, sc ≠ 0` opens a
sector write; `buff = none, sc = 0` finalizes it. -/
def disk_writep (buff : Option (List Nat)) (sc : Nat) (ds : DiskState) :
    DRESULT × DiskState :=
  match buff with
  | some bytes =>
    -- Stream: send min(bc, wc) data bytes
    let n := min (sc % 65536) ds.wc
    let s := xmitList bytes n ds.spi
    (DRESULT.RES_OK, { ds with wc := ds.wc - n, spi := s })
  | none =>
    if sc ≠ 0 then
      -- Open: initiate WRITE_BLOCK
      let addr := if ds.cardType &&& CT_BLOCK = 0 then sc * 512 % 2 ^ 32 else sc % 2 ^ 32
      let p := send_cmd 24 addr ds.spi
      if p.1 = 0 then
        let s := xmit_spi 0xFE (xmit_spi 0xFF p.2)
        (DRESULT.RES_OK, { ds with wc := 512, spi := s })
      else (DRESULT.RES_ERROR, { ds with spi := p.2 })
    else
      -- Finalize: pad the block and 2 CRC bytes with 0, check data response
      let s := xmitZeros (ds.wc + 2) ds.spi
      let p := rcv_spi s
      if p.1 &&& 0x1F = 0x05 then
        let w := waitReady 65000 p.2
        let s3 := (rcv_spi (spiDeselect w.2)).2
        ((if w.1 ≠ 0 then DRESULT.RES_OK else DRESULT.RES_ERROR), { ds with spi := s3 })
      else
        let s3 := (rcv_spi (spiDeselect p.2)).2
        (DRESULT.RES_ERROR, { ds with spi := s3 })

/-! ## Helper lemmas : sdlog -/

theorem sd_append_sd_logging (line : List Nat) (st : LogState) :
    (sd_append line st).sd_logging = st.sd_logging := by
  unfold sd_append
  dsimp only
  split
  · rfl
  split
  · split <;> rfl
  split <;> split <;> first | rfl | (split <;> rfl)

theorem sd_append_writes_closed (line : List Nat) (st : LogState)
    (h : st.sd_logging = false) :
    (sd_append line st).writes = st.writes := by
  unfold sd_append
  dsimp only
  simp only [h]
  split
  · rfl
  split
  · simp
  split
  · split
    · simp_all
    · simp_all
  · simp_all

theorem sd_append_pos_le (line : List Nat) (st : LogState)
    (h : st.sd_buf_pos ≤ SD_BUFFER_SIZE) :
    (sd_append line st).sd_buf_pos ≤ SD_BUFFER_SIZE := by
  unfold sd_append
  dsimp only
  split
  · exact h
  split
  · split <;> exact h
  rename_i hbig
  push_neg at hbig
  split
  · split <;> (split <;> simp_all <;> omega)
  · split <;> simp_all <;> omega

theorem sd_append_frame (line : List Nat) (st : LogState) (i : Nat)
    (hi : SD_BUFFER_SIZE ≤ i) :
    (sd_append line st).sd_buffer i = st.sd_buffer i := by
  unfold sd_append
  dsimp only
  split
  · rfl
  split
  · split <;> rfl
  rename_i hbig
  push_neg at hbig
  split
  · rename_i hflush
    split <;>
      · split <;> simp_all [writeBytes] <;> omega
  · rename_i hfit
    push_neg at hfit
    split <;> simp_all [writeBytes] <;> omega

theorem stepOp_pos_le (op : LogOp) (st : LogState)
    (h : st.sd_buf_pos ≤ SD_BUFFER_SIZE) :
    (stepOp op st).sd_buf_pos ≤ SD_BUFFER_SIZE := by
  cases op with
  | append line => exact sd_append_pos_le line st h
  | start i o =>
    show ((sd_log_start i o st).2).sd_buf_pos ≤ SD_BUFFER_SIZE
    unfold sd_log_start
    split
    · exact h
    split
    · exact h
    split
    · exact h
    · simp
  | stop =>
    show (sd_log_stop st).sd_buf_pos ≤ SD_BUFFER_SIZE
    unfold sd_log_stop
    dsimp only
    split
    · exact h
    split
    · simp
    · exact h
  | init => exact Nat.zero_le _

theorem stepOp_frame (op : LogOp) (st : LogState) (i : Nat)
    (hi : SD_BUFFER_SIZE ≤ i) :
    (stepOp op st).sd_buffer i = st.sd_buffer i := by
  cases op with
  | append line => exact sd_append_frame line st i hi
  | start a o =>
    show ((sd_log_start a o st).2).sd_buffer i = st.sd_buffer i
    unfold sd_log_start
    split
    · rfl
    split
    · rfl
    split
    · rfl
    · rfl
  | stop =>
    show (sd_log_stop st).sd_buffer i = st.sd_buffer i
    unfold sd_log_stop
    dsimp only
    split
    · rfl
    split
    · rfl
    · rfl
  | init => rfl

/-! ## Claims about the append buffer and session controller -/

/-- Concrete states and records used by the closed-form claim instances. -/
def startedState : LogState := (sd_log_start 0 0 initLogState).2

def rec20 : List Nat := List.replicate 20 65
def rec80 : List Nat := List.replicate 80 66
def rec5 : List Nat := List.replicate 5 67

/-- C1 counterexample: with the session Closed (`initLogState`), one
`append_line` of a 5-byte record is not a no-op — the write cursor moves
from 0 to 5 and the first buffer byte changes from 0 to the record's
first byte. -/
theorem C1_counterexample :
    initLogState.sd_logging = false ∧
    initLogState.sd_buf_pos = 0 ∧
    (sd_append rec5 initLogState).sd_buf_pos = 5 ∧
    initLogState.sd_buffer 0 = 0 ∧
    (sd_append rec5 initLogState).sd_buffer 0 = 67 := by
  refine ⟨rfl, rfl, by decide, rfl, by decide⟩

/-- C1 (amended): while the logging session is Closed, `append_line`
writes nothing to storage (the backend write list is unchanged) and
leaves the session Closed, but it is not a no-op on RAM state: the
record is still copied into the buffer and the cursor advances (or is
reset when the buffer would overflow). -/
theorem C1_closed_no_storage_write (line : List Nat) (st : LogState)
    (h : st.sd_logging = false) :
    (sd_append line st).writes = st.writes ∧
    (sd_append line st).sd_logging = false := by
  refine ⟨sd_append_writes_closed line st h, ?_⟩
  rw [sd_append_sd_logging line st, h]

theorem C1_closed_no_storage_write_witness :
    (sd_append rec5 initLogState).writes = initLogState.writes :=
  (C1_closed_no_storage_write rec5 initLogState rfl).1

/-- C3: over every sequence of append/start/stop/init calls, from any
state whose cursor is in bounds, the write cursor stays between 0 and
`SD_BUFFER_SIZE`, and no append ever writes at or past the end of the
`SD_BUFFER_SIZE`-byte buffer (bytes at indices ≥ `SD_BUFFER_SIZE` never
change). -/
theorem C3_cursor_bounded (ops : List LogOp) (st : LogState)
    (h : st.sd_buf_pos ≤ SD_BUFFER_SIZE) :
    (runOps ops st).sd_buf_pos ≤ SD_BUFFER_SIZE ∧
    ∀ i, SD_BUFFER_SIZE ≤ i → (runOps ops st).sd_buffer i = st.sd_buffer i := by
  induction ops generalizing st with
  | nil => exact ⟨h, fun i _ => rfl⟩
  | cons op rest ih =>
    have hstep := stepOp_pos_le op st h
    have h2 := ih (stepOp op st) hstep
    refine ⟨h2.1, fun i hi => ?_⟩
    rw [show runOps (op :: rest) st = runOps rest (stepOp op st) from rfl]
    rw [h2.2 i hi, stepOp_frame op st i hi]

theorem C3_cursor_bounded_witness :
    (runOps [LogOp.start 0 0, LogOp.append rec20, LogOp.append rec80,
      LogOp.stop] initLogState).sd_buf_pos ≤ SD_BUFFER_SIZE :=
  (C3_cursor_bounded _ initLogState (by decide)).1

set_option maxRecDepth 40000 in
/-- C4: with capacity 256, threshold 128 and the session Open (right
after a successful `start`, which has issued only the header write),
three 20-byte appends trigger no backend write and leave the cursor at
60; a fourth 80-byte append triggers exactly one backend write of
exactly 140 bytes and resets the cursor to 0. -/
theorem C4_flush_scenario :
    SD_BUFFER_SIZE = 256 ∧ SD_FLUSH_THRESHOLD = 128 ∧
    startedState.sd_logging = true ∧
    (runOps [LogOp.append rec20, LogOp.append rec20, LogOp.append rec20]
        startedState).writes = startedState.writes ∧
    (runOps [LogOp.append rec20, LogOp.append rec20, LogOp.append rec20]
        startedState).sd_buf_pos = 60 ∧
    (runOps [LogOp.append rec20, LogOp.append rec20, LogOp.append rec20,
        LogOp.append rec80] startedState).writes =
      startedState.writes ++ [List.replicate 20 65 ++ List.replicate 20 65 ++
        List.replicate 20 65 ++ List.replicate 80 66] ∧
    (List.replicate 20 65 ++ List.replicate 20 65 ++ List.replicate 20 65 ++
      (List.replicate 80 66 : List Nat)).length = 140 ∧
    (runOps [LogOp.append rec20, LogOp.append rec20, LogOp.append rec20,
        LogOp.append rec80] startedState).sd_buf_pos = 0 := by
  refine ⟨rfl, rfl, by decide, by decide, by decide, by decide, by decide, by decide⟩

/-- C6: `start` is a no-op success when the session is already Open; when
card initialization fails (`initRes ≠ 0`) it returns −1 with the state
unchanged, and when the file open fails (`openRes ≠ 0`) it returns −2
with the state unchanged — in both failure cases the session stays
Closed and the public `sd_logging` indicator stays false. -/
theorem C6_start_errors (st : LogState) (initRes openRes : Int) :
    (st.sd_logging = true → sd_log_start initRes openRes st = (0, st)) ∧
    (st.sd_logging = false → initRes ≠ 0 →
      sd_log_start initRes openRes st = (-1, st) ∧
      (sd_log_start initRes openRes st).2.sd_logging = false) ∧
    (st.sd_logging = false → initRes = 0 → openRes ≠ 0 →
      sd_log_start initRes openRes st = (-2, st) ∧
      (sd_log_start initRes openRes st).2.sd_logging = false) := by
  unfold sd_log_start
  refine ⟨fun h => by simp [h], fun h hi => ?_, fun h hi ho => ?_⟩
  · simp [h, hi]
  · simp [h, hi, ho]

theorem C6_start_errors_witness :
    sd_log_start (-1) 0 initLogState = (-1, initLogState) :=
  ((C6_start_errors initLogState (-1) 0).2.1 rfl (by decide)).1

/-! ## Helper lemmas : SPI traces -/

theorem xmits_append (a b : List SpiEvent) : xmits (a ++ b) = xmits a ++ xmits b := by
  induction a with
  | nil => rfl
  | cons e rest ih => cases e <;> simp [xmits, ih]

theorem xmits_rcv (s : SpiState) : xmits (rcv_spi s).2.trace = xmits s.trace := by
  unfold rcv_spi
  cases s.input <;> simp [xmits_append, xmits]

theorem xmits_xmit (b : Nat) (s : SpiState) :
    xmits (xmit_spi b s).trace = xmits s.trace ++ [b % 256] := by
  simp [xmit_spi, xmits_append, xmits]

theorem xmits_sel (s : SpiState) : xmits (spiSelect s).trace = xmits s.trace := by
  simp [spiSelect, xmits_append, xmits]

theorem xmits_desel (s : SpiState) : xmits (spiDeselect s).trace = xmits s.trace := by
  simp [spiDeselect, xmits_append, xmits]

theorem xmits_pollR1 (n : Nat) : ∀ s : SpiState,
    xmits (pollR1 n s).2.trace = xmits s.trace := by
  induction n with
  | zero => intro s; simp [pollR1, xmits_rcv]
  | succ m ih =>
    intro s
    cases m with
    | zero => simp [pollR1, xmits_rcv]
    | succ k =>
      show xmits (pollR1 (k + 2) s).2.trace = xmits s.trace
      unfold pollR1
      dsimp only
      split
      · exact xmits_rcv s
      · rw [ih, xmits_rcv]

theorem xmits_skipBytes (n : Nat) : ∀ s : SpiState,
    xmits (skipBytes n s).trace = xmits s.trace := by
  induction n with
  | zero => intro s; rfl
  | succ m ih => intro s; rw [show skipBytes (m + 1) s = skipBytes m (rcv_spi s).2 from rfl,
      ih, xmits_rcv]

theorem xmits_readBytes (n : Nat) : ∀ s : SpiState,
    xmits (readBytes n s).2.trace = xmits s.trace := by
  induction n with
  | zero => intro s; rfl
  | succ m ih =>
    intro s
    show xmits (readBytes m (rcv_spi s).2).2.trace = xmits s.trace
    rw [ih, xmits_rcv]

theorem xmits_waitToken (n : Nat) : ∀ s : SpiState,
    xmits (waitToken n s).2.trace = xmits s.trace := by
  induction n with
  | zero => intro s; simp [waitToken, xmits_rcv]
  | succ m ih =>
    intro s
    cases m with
    | zero => simp [waitToken, xmits_rcv]
    | succ k =>
      show xmits (waitToken (k + 2) s).2.trace = xmits s.trace
      unfold waitToken
      dsimp only
      split
      · rw [ih, xmits_rcv]
      · exact xmits_rcv s

/-- Trace contribution of one raw command packet: select dance then the
6 transmitted bytes, then only received bytes. -/
theorem sendCmdCore_xmits (cmd arg : Nat) (s : SpiState) :
    xmits (sendCmdCore cmd arg s).2.trace =
      xmits s.trace ++ [(0x40 ||| cmd) % 256, arg % 2 ^ 32 / 2 ^ 24 % 256,
        arg % 2 ^ 32 / 2 ^ 16 % 256, arg % 2 ^ 32 / 2 ^ 8 % 256, arg % 2 ^ 32 % 256,
        (if cmd = 0 then 0x95 else if cmd = 8 then 0x87 else 0x01) % 256] := by
  unfold sendCmdCore
  dsimp only
  split
  · rw [xmits_pollR1, xmits_rcv, xmits_xmit, xmits_xmit, xmits_xmit, xmits_xmit,
      xmits_xmit, xmits_xmit, xmits_rcv, xmits_sel, xmits_rcv, xmits_desel]
    simp
  · rw [xmits_pollR1, xmits_xmit, xmits_xmit, xmits_xmit, xmits_xmit,
      xmits_xmit, xmits_xmit, xmits_rcv, xmits_sel, xmits_rcv, xmits_desel]
    simp

/-- Idle bus with no card responses queued and an empty trace. -/
def emptyBus : SpiState := { input := [], trace := [] }

/-- C2: the checksum byte (6th byte of the transmitted packet) is 0x95
for GO_IDLE_STATE (CMD0) with any argument, 0x87 for SEND_IF_COND (CMD8)
with argument 0x1AA, and the fixed filler 0x01 for every other
(non-application-flagged) command index. -/
theorem C2_checksum :
    (∀ (arg : Nat) (s : SpiState), xmits (send_cmd 0 arg s).2.trace =
      xmits s.trace ++ [0x40, arg % 2 ^ 32 / 2 ^ 24 % 256, arg % 2 ^ 32 / 2 ^ 16 % 256,
        arg % 2 ^ 32 / 2 ^ 8 % 256, arg % 2 ^ 32 % 256, 0x95]) ∧
    (∀ s : SpiState, xmits (send_cmd 8 0x1AA s).2.trace =
      xmits s.trace ++ [0x48, 0x00, 0x00, 0x01, 0xAA, 0x87]) ∧
    (∀ (cmd arg : Nat) (s : SpiState), cmd &&& 0x80 = 0 → cmd ≠ 0 → cmd ≠ 8 →
      xmits (send_cmd cmd arg s).2.trace =
        xmits s.trace ++ [(0x40 ||| cmd) % 256, arg % 2 ^ 32 / 2 ^ 24 % 256,
          arg % 2 ^ 32 / 2 ^ 16 % 256, arg % 2 ^ 32 / 2 ^ 8 % 256, arg % 2 ^ 32 % 256,
          0x01]) := by
  refine ⟨fun arg s => ?_, fun s => ?_, fun cmd arg s hflag h0 h8 => ?_⟩
  · rw [show send_cmd 0 arg s = sendCmdCore 0 arg s by
      unfold send_cmd; rw [if_neg (by decide)]]
    rw [sendCmdCore_xmits]
    simp [show ((64 : Nat) ||| 0) % 256 = 64 by decide]
  · rw [show send_cmd 8 0x1AA s = sendCmdCore 8 0x1AA s by
      unfold send_cmd; rw [if_neg (by decide)]]
    rw [sendCmdCore_xmits]
    simp [show ((64 : Nat) ||| 8) % 256 = 72 by decide]
  · rw [show send_cmd cmd arg s = sendCmdCore cmd arg s by
      unfold send_cmd; rw [if_neg (by simp [hflag])]]
    rw [sendCmdCore_xmits]
    simp [h0, h8]

theorem C2_checksum_witness :
    xmits (send_cmd 17 5 emptyBus).2.trace =
      xmits emptyBus.trace ++ [(0x40 ||| 17) % 256, 5 % 2 ^ 32 / 2 ^ 24 % 256,
        5 % 2 ^ 32 / 2 ^ 16 % 256, 5 % 2 ^ 32 / 2 ^ 8 % 256, 5 % 2 ^ 32 % 256, 0x01] :=
  C2_checksum.2.2 17 5 emptyBus (by decide) (by decide) (by decide)

/-- C7: a command index with the application-command flag (bit 7) first
transmits the APP_CMD packet `CMD55(0)` (bytes 0x77,0,0,0,0,0x01); when
the CMD55 response exceeds 1 the call aborts returning that response,
with nothing further transmitted; only otherwise is the flagged
command's own packet transmitted next. -/
theorem C7_acmd_prelude (cmd arg : Nat) (s : SpiState) (h : cmd &&& 0x80 ≠ 0) :
    (1 < (sendCmdCore 55 0 s).1 →
      send_cmd cmd arg s = sendCmdCore 55 0 s ∧
      xmits (send_cmd cmd arg s).2.trace =
        xmits s.trace ++ [0x77, 0, 0, 0, 0, 0x01]) ∧
    ((sendCmdCore 55 0 s).1 ≤ 1 →
      ∃ tail, xmits (send_cmd cmd arg s).2.trace =
        xmits s.trace ++ [0x77, 0, 0, 0, 0, 0x01] ++
          ((0x40 ||| (cmd &&& 0x7F)) % 256) :: tail) := by
  constructor
  · intro hgt
    have he : send_cmd cmd arg s = sendCmdCore 55 0 s := by
      unfold send_cmd
      rw [if_pos h]
      dsimp only
      rw [if_pos hgt]
    refine ⟨he, ?_⟩
    rw [he, sendCmdCore_xmits]
    simp [show ((64 : Nat) ||| 55) % 256 = 119 by decide]
  · intro hle
    have he : send_cmd cmd arg s =
        sendCmdCore (cmd &&& 0x7F) arg (sendCmdCore 55 0 s).2 := by
      unfold send_cmd
      rw [if_pos h]
      dsimp only
      rw [if_neg (by omega)]
    rw [he, sendCmdCore_xmits, sendCmdCore_xmits]
    refine ⟨[arg % 2 ^ 32 / 2 ^ 24 % 256, arg % 2 ^ 32 / 2 ^ 16 % 256,
      arg % 2 ^ 32 / 2 ^ 8 % 256, arg % 2 ^ 32 % 256,
      (if cmd &&& 0x7F = 0 then 0x95 else if cmd &&& 0x7F = 8 then 0x87 else 0x01) % 256], ?_⟩
    simp [show ((64 : Nat) ||| 55) % 256 = 119 by decide]

theorem C7_acmd_prelude_witness :
    send_cmd 0xA9 0 emptyBus = sendCmdCore 55 0 emptyBus :=
  ((C7_acmd_prelude 0xA9 0 emptyBus (by decide)).1 (by decide)).1

theorem send_cmd_noflag (cmd arg : Nat) (s : SpiState) (h : cmd &&& 0x80 = 0) :
    send_cmd cmd arg s = sendCmdCore cmd arg s := by
  unfold send_cmd
  rw [if_neg (by simp [h])]

theorem mod_mod_same (a m : Nat) : a % m % m = a % m :=
  Nat.mod_mod_of_dvd a dvd_rfl

/-- Packet-level effect of `disk_readp`: for a nonzero count, the only
bytes transmitted are the 6 bytes of the CMD17 packet carrying the
translated address. -/
theorem disk_readp_cmd17_xmits (useBuff : Bool) (sector offset count addr : Nat)
    (ds : DiskState) (hc : count ≠ 0)
    (haddr : (if ds.cardType &&& CT_BLOCK = 0 then sector * 512 % 2 ^ 32
      else sector % 2 ^ 32) = addr) :
    xmits (disk_readp useBuff sector offset count ds).2.2.spi.trace =
      xmits ds.spi.trace ++ [0x51, addr / 2 ^ 24 % 256, addr / 2 ^ 16 % 256,
        addr / 2 ^ 8 % 256, addr % 256, 0x01] := by
  have haddr32 : addr % 2 ^ 32 = addr := by
    rw [← haddr]; split <;> exact mod_mod_same _ _
  unfold disk_readp
  rw [if_neg hc]
  dsimp only
  rw [haddr]
  split
  · split
    · dsimp only
      rw [xmits_rcv, xmits_desel, xmits_skipBytes, xmits_readBytes, xmits_skipBytes,
        xmits_waitToken, send_cmd_noflag 17 addr _ (by decide), sendCmdCore_xmits,
        haddr32]
      simp [show ((64 : Nat) ||| 17) % 256 = 81 by decide]
    · dsimp only
      rw [xmits_rcv, xmits_desel, xmits_waitToken,
        send_cmd_noflag 17 addr _ (by decide), sendCmdCore_xmits, haddr32]
      simp [show ((64 : Nat) ||| 17) % 256 = 81 by decide]
  · dsimp only
    rw [xmits_rcv, xmits_desel, send_cmd_noflag 17 addr _ (by decide),
      sendCmdCore_xmits, haddr32]
    simp [show ((64 : Nat) ||| 17) % 256 = 81 by decide]

/-- Packet-level effect of the Open phase of `disk_writep`: the CMD24
packet with the translated address is transmitted first (followed by the
spacer and start token when the command is accepted). -/
theorem disk_writep_cmd24_xmits (sc addr : Nat) (ds : DiskState) (hc : sc ≠ 0)
    (haddr : (if ds.cardType &&& CT_BLOCK = 0 then sc * 512 % 2 ^ 32
      else sc % 2 ^ 32) = addr) :
    ∃ tail, xmits (disk_writep none sc ds).2.spi.trace =
      xmits ds.spi.trace ++ [0x58, addr / 2 ^ 24 % 256, addr / 2 ^ 16 % 256,
        addr / 2 ^ 8 % 256, addr % 256, 0x01] ++ tail := by
  have haddr32 : addr % 2 ^ 32 = addr := by
    rw [← haddr]; split <;> exact mod_mod_same _ _
  unfold disk_writep
  rw [if_pos hc]
  dsimp only
  rw [haddr]
  split
  · refine ⟨[0xFF, 0xFE], ?_⟩
    dsimp only
    rw [xmits_xmit, xmits_xmit, send_cmd_noflag 24 addr _ (by decide),
      sendCmdCore_xmits, haddr32]
    simp [show ((64 : Nat) ||| 24) % 256 = 88 by decide]
  · refine ⟨[], ?_⟩
    dsimp only
    rw [send_cmd_noflag 24 addr _ (by decide), sendCmdCore_xmits, haddr32]
    simp [show ((64 : Nat) ||| 24) % 256 = 88 by decide]

/-- C8: the 32-bit argument transmitted with READ_SINGLE_BLOCK (CMD17) by
`disk_readp` and with WRITE_BLOCK (CMD24) by the Open phase of
`disk_writep` is `sector * 512` (mod 2^32) when the card context is not
block-addressed, and the raw sector number when it is. Stated through
the transmitted packet bytes (argument MSB-first in bytes 2–5). -/
theorem C8_sector_addressing :
    (∀ (useBuff : Bool) (sector offset count : Nat) (ds : DiskState), count ≠ 0 →
      ds.cardType &&& CT_BLOCK = 0 →
      xmits (disk_readp useBuff sector offset count ds).2.2.spi.trace =
        xmits ds.spi.trace ++ [0x51, sector * 512 % 2 ^ 32 / 2 ^ 24 % 256,
          sector * 512 % 2 ^ 32 / 2 ^ 16 % 256, sector * 512 % 2 ^ 32 / 2 ^ 8 % 256,
          sector * 512 % 2 ^ 32 % 256, 0x01]) ∧
    (∀ (useBuff : Bool) (sector offset count : Nat) (ds : DiskState), count ≠ 0 →
      ds.cardType &&& CT_BLOCK ≠ 0 →
      xmits (disk_readp useBuff sector offset count ds).2.2.spi.trace =
        xmits ds.spi.trace ++ [0x51, sector % 2 ^ 32 / 2 ^ 24 % 256,
          sector % 2 ^ 32 / 2 ^ 16 % 256, sector % 2 ^ 32 / 2 ^ 8 % 256,
          sector % 2 ^ 32 % 256, 0x01]) ∧
    (∀ (sc : Nat) (ds : DiskState), sc ≠ 0 → ds.cardType &&& CT_BLOCK = 0 →
      ∃ tail, xmits (disk_writep none sc ds).2.spi.trace =
        xmits ds.spi.trace ++ [0x58, sc * 512 % 2 ^ 32 / 2 ^ 24 % 256,
          sc * 512 % 2 ^ 32 / 2 ^ 16 % 256, sc * 512 % 2 ^ 32 / 2 ^ 8 % 256,
          sc * 512 % 2 ^ 32 % 256, 0x01] ++ tail) ∧
    (∀ (sc : Nat) (ds : DiskState), sc ≠ 0 → ds.cardType &&& CT_BLOCK ≠ 0 →
      ∃ tail, xmits (disk_writep none sc ds).2.spi.trace =
        xmits ds.spi.trace ++ [0x58, sc % 2 ^ 32 / 2 ^ 24 % 256,
          sc % 2 ^ 32 / 2 ^ 16 % 256, sc % 2 ^ 32 / 2 ^ 8 % 256,
          sc % 2 ^ 32 % 256, 0x01] ++ tail) := by
  refine ⟨fun useBuff sector offset count ds hc hb => ?_,
    fun useBuff sector offset count ds hc hb => ?_,
    fun sc ds hc hb => ?_, fun sc ds hc hb => ?_⟩
  · exact disk_readp_cmd17_xmits useBuff sector offset count _ ds hc (by rw [if_pos hb])
  · exact disk_readp_cmd17_xmits useBuff sector offset count _ ds hc (by rw [if_neg hb])
  · exact disk_writep_cmd24_xmits sc _ ds hc (by rw [if_pos hb])
  · exact disk_writep_cmd24_xmits sc _ ds hc (by rw [if_neg hb])

theorem C8_sector_addressing_witness :
    xmits (disk_readp true 3 0 1
        { cardType := 0, wc := 0, spi := emptyBus }).2.2.spi.trace =
      xmits emptyBus.trace ++ [0x51, 3 * 512 % 2 ^ 32 / 2 ^ 24 % 256,
        3 * 512 % 2 ^ 32 / 2 ^ 16 % 256, 3 * 512 % 2 ^ 32 / 2 ^ 8 % 256,
        3 * 512 % 2 ^ 32 % 256, 0x01] :=
  C8_sector_addressing.1 true 3 0 1 { cardType := 0, wc := 0, spi := emptyBus }
    (by decide) (by decide)

/-- C10: `disk_readp` with `count = 0` returns `RES_PARERR` immediately
with the whole driver state (including the bus trace — no select, no
command) unchanged, and `RES_PARERR` is returned in no other case. -/
theorem C10_parerr (useBuff : Bool) (sector offset count : Nat) (ds : DiskState) :
    (count = 0 → disk_readp useBuff sector offset count ds = (DRESULT.RES_PARERR, [], ds)) ∧
    (count ≠ 0 → (disk_readp useBuff sector offset count ds).1 ≠ DRESULT.RES_PARERR) := by
  constructor
  · intro h
    subst h
    unfold disk_readp
    rw [if_pos rfl]
  · intro h
    unfold disk_readp
    rw [if_neg h]
    dsimp only
    split_ifs <;> simp

theorem C10_parerr_witness :
    disk_readp true 9 4 0 { cardType := 0, wc := 0, spi := emptyBus } =
      (DRESULT.RES_PARERR, [], { cardType := 0, wc := 0, spi := emptyBus }) :=
  (C10_parerr true 9 4 0 { cardType := 0, wc := 0, spi := emptyBus }).1 rfl

/-! ## Helper lemmas : loop bounds and exhaustion -/

theorem trace_len_rcv (s : SpiState) :
    (rcv_spi s).2.trace.length = s.trace.length + 1 := by
  unfold rcv_spi
  cases s.input <;> simp

theorem trace_len_xmit (b : Nat) (s : SpiState) :
    (xmit_spi b s).trace.length = s.trace.length + 1 := by
  simp [xmit_spi]

theorem trace_len_sel (s : SpiState) :
    (spiSelect s).trace.length = s.trace.length + 1 := by
  simp [spiSelect]

theorem trace_len_desel (s : SpiState) :
    (spiDeselect s).trace.length = s.trace.length + 1 := by
  simp [spiDeselect]

theorem rcv_spi_last (s : SpiState) :
    (rcv_spi s).2.trace = s.trace ++ [SpiEvent.rcv (rcv_spi s).1] := by
  unfold rcv_spi
  cases s.input <;> simp

theorem pollR1_len (n : Nat) : ∀ s : SpiState, 1 ≤ n →
    (pollR1 n s).2.trace.length ≤ s.trace.length + n := by
  induction n with
  | zero => intro s h; omega
  | succ m ih =>
    intro s _
    cases m with
    | zero => simp [pollR1, trace_len_rcv]
    | succ k =>
      show (pollR1 (k + 2) s).2.trace.length ≤ s.trace.length + (k + 2)
      unfold pollR1
      dsimp only
      split
      · rw [trace_len_rcv]; omega
      · have := ih (rcv_spi s).2 (by omega)
        rw [trace_len_rcv] at this
        omega

theorem pollR1_last (n : Nat) : ∀ s : SpiState,
    ∃ t, (pollR1 n s).2.trace = t ++ [SpiEvent.rcv (pollR1 n s).1] := by
  induction n with
  | zero => intro s; exact ⟨s.trace, rcv_spi_last s⟩
  | succ m ih =>
    intro s
    cases m with
    | zero => exact ⟨s.trace, rcv_spi_last s⟩
    | succ k =>
      show ∃ t, (pollR1 (k + 2) s).2.trace = t ++ [SpiEvent.rcv (pollR1 (k + 2) s).1]
      unfold pollR1
      dsimp only
      split
      · exact ⟨s.trace, rcv_spi_last s⟩
      · exact ih (rcv_spi s).2

theorem waitToken_len (n : Nat) : ∀ s : SpiState, 1 ≤ n →
    (waitToken n s).2.trace.length ≤ s.trace.length + n := by
  induction n with
  | zero => intro s h; omega
  | succ m ih =>
    intro s _
    cases m with
    | zero => simp [waitToken, trace_len_rcv]
    | succ k =>
      show (waitToken (k + 2) s).2.trace.length ≤ s.trace.length + (k + 2)
      unfold waitToken
      dsimp only
      split
      · have := ih (rcv_spi s).2 (by omega)
        rw [trace_len_rcv] at this
        omega
      · rw [trace_len_rcv]; omega

theorem waitReady_len (n : Nat) : ∀ s : SpiState,
    (waitReady n s).2.trace.length ≤ s.trace.length + n + 1 := by
  induction n with
  | zero => intro s; simp [waitReady, trace_len_rcv]
  | succ m ih =>
    intro s
    show (waitReady (m + 1) s).2.trace.length ≤ s.trace.length + (m + 1) + 1
    unfold waitReady
    dsimp only
    split
    · rw [trace_len_rcv]; omega
    · have := ih (rcv_spi s).2
      rw [trace_len_rcv] at this
      omega

theorem sendCmdCore_len (cmd arg : Nat) (s : SpiState) :
    (sendCmdCore cmd arg s).2.trace.length ≤ s.trace.length + 21 := by
  unfold sendCmdCore
  dsimp only
  split
  · refine le_trans (pollR1_len 10 _ (by omega)) ?_
    simp only [trace_len_rcv, trace_len_xmit, trace_len_sel, trace_len_desel]
    omega
  · refine le_trans (pollR1_len 10 _ (by omega)) ?_
    simp only [trace_len_rcv, trace_len_xmit, trace_len_sel, trace_len_desel]
    omega

theorem send_cmd_len (cmd arg : Nat) (s : SpiState) :
    (send_cmd cmd arg s).2.trace.length ≤ s.trace.length + 42 := by
  unfold send_cmd
  split
  · dsimp only
    split
    · exact le_trans (sendCmdCore_len 55 0 s) (by omega)
    · refine le_trans (sendCmdCore_len _ arg _) ?_
      have := sendCmdCore_len 55 0 s
      omega
  · exact le_trans (sendCmdCore_len cmd arg s) (by omega)

theorem initPoll_len (cmd arg : Nat) : ∀ (t : Nat) (s : SpiState),
    (initPoll cmd arg t s).2.trace.length ≤ s.trace.length + 42 * t := by
  intro t
  induction t with
  | zero => intro s; simp [initPoll]
  | succ m ih =>
    intro s
    unfold initPoll
    dsimp only
    split
    · show ((m + 1, (send_cmd cmd arg s).2)).2.trace.length ≤ s.trace.length + 42 * (m + 1)
      dsimp only
      have := send_cmd_len cmd arg s
      omega
    · have h1 := ih (send_cmd cmd arg s).2
      have h2 := send_cmd_len cmd arg s
      have : 42 * (m + 1) = 42 * m + 42 := by ring
      omega

theorem waitToken_stuck (n : Nat) : ∀ s : SpiState, s.input = [] →
    (waitToken n s).1 = 0xFF := by
  induction n with
  | zero =>
    intro s h
    show (rcv_spi s).1 = 0xFF
    unfold rcv_spi
    rw [h]
  | succ m ih =>
    intro s h
    cases m with
    | zero =>
      show (rcv_spi s).1 = 0xFF
      unfold rcv_spi
      rw [h]
    | succ k =>
      show (waitToken (k + 2) s).1 = 0xFF
      have hr : rcv_spi s = (0xFF, { s with trace := s.trace ++ [SpiEvent.rcv 0xFF] }) := by
        unfold rcv_spi
        rw [h]
      unfold waitToken
      dsimp only
      rw [hr]
      dsimp only
      rw [if_pos rfl]
      exact ih _ h

theorem waitReady_zeros : ∀ (n m : Nat) (tr : List SpiEvent), n + 1 ≤ m →
    (waitReady n { input := List.replicate m 0, trace := tr }).1 = 0 := by
  intro n
  induction n with
  | zero => intro m tr _; rfl
  | succ b ih =>
    intro m tr h
    cases m with
    | zero => omega
    | succ m2 =>
      show (waitReady (b + 1) { input := List.replicate (m2 + 1) 0, trace := tr }).1 = 0
      have hr : rcv_spi { input := List.replicate (m2 + 1) 0, trace := tr } =
          (0, { input := List.replicate m2 0,
                trace := tr ++ [SpiEvent.rcv 0] }) := by
        simp [rcv_spi, List.replicate_succ]
      unfold waitReady
      dsimp only
      rw [hr]
      dsimp only
      rw [if_neg (by decide)]
      exact ih m2 _ (by omega)

theorem xmitZeros_input (n : Nat) : ∀ s : SpiState, (xmitZeros n s).input = s.input := by
  induction n with
  | zero => intro s; rfl
  | succ m ih =>
    intro s
    show (xmitZeros m (xmit_spi 0 s)).input = s.input
    rw [ih]
    rfl

/-- When READ_SINGLE_BLOCK is accepted but the card never produces a
data token (no further input), the bounded token wait exhausts and
`disk_readp` fails cleanly. -/
theorem readp_token_exhaust (useBuff : Bool) (sector offset count : Nat) (ds : DiskState)
    (hc : count ≠ 0) (hct : ds.cardType &&& CT_BLOCK = 0)
    (h1 : (send_cmd 17 (sector * 512 % 2 ^ 32) ds.spi).1 = 0)
    (h2 : (send_cmd 17 (sector * 512 % 2 ^ 32) ds.spi).2.input = []) :
    (disk_readp useBuff sector offset count ds).1 = DRESULT.RES_ERROR := by
  unfold disk_readp
  rw [if_neg hc]
  dsimp only
  rw [if_pos hct]
  rw [if_pos h1]
  rw [if_neg (by rw [waitToken_stuck 30000 _ h2]; decide)]

/-- When WRITE_BLOCK finalize gets an "accepted" data response but the
card stays busy (returns 0, never 0xFF) longer than the 65000-iteration
budget, the busy wait exhausts and `disk_writep` fails cleanly. -/
theorem writep_busy_exhaust (ds : DiskState)
    (h : ds.spi.input = 0x05 :: List.replicate 65001 0) :
    (disk_writep none 0 ds).1 = DRESULT.RES_ERROR := by
  unfold disk_writep
  rw [if_neg (by decide)]
  dsimp only
  have hin : (xmitZeros (ds.wc + 2) ds.spi).input = 0x05 :: List.replicate 65001 0 := by
    rw [xmitZeros_input, h]
  have hr : rcv_spi (xmitZeros (ds.wc + 2) ds.spi) =
      (0x05, { input := List.replicate 65001 0,
               trace := (xmitZeros (ds.wc + 2) ds.spi).trace ++ [SpiEvent.rcv 0x05] }) := by
    unfold rcv_spi
    rw [hin]
  rw [hr]
  dsimp only
  rw [if_pos (by decide)]
  rw [if_neg (by rw [waitReady_zeros 65000 65001 _ (by omega)]; decide)]

/-- Driver state for a card that accepts READ_SINGLE_BLOCK but never
sends a data token. -/
def tokenStuckDisk : DiskState :=
  { cardType := 0, wc := 0, spi := { input := [0xFF, 0xFF, 0x00], trace := [] } }

/-- Driver state for a finalize whose card accepts the data (response
0x05) but then stays busy (driving 0) past the whole busy-wait budget. -/
def busyStuckDisk : DiskState :=
  { cardType := 0, wc := 0,
    spi := { input := 0x05 :: List.replicate 65001 0, trace := [] } }

/-- C9: every polling loop of the driver is bounded by its fixed
iteration budget — the command-response wait does at most 10 reads and
returns the last byte read, the data-token wait at most 30000 reads, the
write busy-wait at most 65001 reads, and each init polling loop sends at
most its budget of commands (each contributing at most 42 bus events) —
and exhaustion yields a failure status: a read whose card never sends a
data token returns `RES_ERROR`, and a finalize whose card never leaves
busy returns `RES_ERROR`. -/
theorem C9_bounded_polling :
    (∀ s : SpiState, (pollR1 10 s).2.trace.length ≤ s.trace.length + 10) ∧
    (∀ s : SpiState, ∃ t, (pollR1 10 s).2.trace = t ++ [SpiEvent.rcv (pollR1 10 s).1]) ∧
    (∀ s : SpiState, (waitToken 30000 s).2.trace.length ≤ s.trace.length + 30000) ∧
    (∀ s : SpiState, (waitReady 65000 s).2.trace.length ≤ s.trace.length + 65001) ∧
    (∀ (cmd arg t : Nat) (s : SpiState),
      (initPoll cmd arg t s).2.trace.length ≤ s.trace.length + 42 * t) ∧
    (disk_readp true 0 0 1 tokenStuckDisk).1 = DRESULT.RES_ERROR ∧
    (disk_writep none 0 busyStuckDisk).1 = DRESULT.RES_ERROR := by
  refine ⟨fun s => pollR1_len 10 s (by omega), fun s => pollR1_last 10 s,
    fun s => waitToken_len 30000 s (by omega), fun s => waitReady_len 65000 s,
    fun cmd arg t s => initPoll_len cmd arg t s, ?_, ?_⟩
  · exact readp_token_exhaust true 0 0 1 _ (by decide) (by decide) (by decide) (by decide)
  · exact writep_busy_exhaust _ rfl

/-- Disk state whose card answers nothing at all (dead / absent card):
initialization fails at CMD0. -/
def deadCardDisk : DiskState := { cardType := CT_SD2, wc := 0, spi := emptyBus }

/-- Bus responses for a card that accepts READ_SINGLE_BLOCK and provides
a data token followed by payload byte 0xAB. -/
def acceptReadBus : SpiState :=
  { input := [0xFF, 0xFF, 0x00, 0xFE, 0xAB], trace := [] }

/-- Module state after a failed init (card type 0), with a responsive
card on the bus. -/
def zeroTypeDisk : DiskState := { cardType := 0, wc := 0, spi := acceptReadBus }

set_option maxRecDepth 400000 in
/-- C5 counterexample: a failed initialization clears the card type to
0, yet a subsequent `disk_readp` on the resulting module state (card
type 0) with a card that happens to answer returns `RES_OK` — block
I/O is not refused by the driver after a failed init. -/
theorem C5_counterexample :
    ( disk_initialize deadCardDisk).1 = STA_NOINIT ∧
    ( disk_initialize deadCardDisk).2.cardType = 0 ∧
    (disk_readp true 3 0 1 zeroTypeDisk).1 = DRESULT.RES_OK := by
  refine ⟨by decide, by decide, by decide⟩

set_option maxRecDepth 400000 in
/-- C5 (amended): a failed initialization does clear the card type to 0,
but subsequent block I/O calls are not gated on it: for any driver state
with card type 0, `disk_readp` (with nonzero count) still issues the
READ_SINGLE_BLOCK command — treating the card as byte-addressed — and
its status is determined by the card's responses rather than being
refused outright. -/
theorem C5_failed_init_no_gating :
    (( disk_initialize deadCardDisk).1 = STA_NOINIT ∧
     ( disk_initialize deadCardDisk).2.cardType = 0) ∧
    (∀ (useBuff : Bool) (sector offset count : Nat) (ds : DiskState), count ≠ 0 →
      ds.cardType = 0 →
      xmits (disk_readp useBuff sector offset count ds).2.2.spi.trace =
        xmits ds.spi.trace ++ [0x51, sector * 512 % 2 ^ 32 / 2 ^ 24 % 256,
          sector * 512 % 2 ^ 32 / 2 ^ 16 % 256, sector * 512 % 2 ^ 32 / 2 ^ 8 % 256,
          sector * 512 % 2 ^ 32 % 256, 0x01]) := by
  refine ⟨⟨by decide, by decide⟩, fun useBuff sector offset count ds hc h0 => ?_⟩
  exact disk_readp_cmd17_xmits useBuff sector offset count _ ds hc
    (by rw [if_pos (by rw [h0]; decide)])

theorem C5_failed_init_no_gating_witness :
    xmits (disk_readp true 3 0 1 zeroTypeDisk).2.2.spi.trace =
      xmits zeroTypeDisk.spi.trace ++ [0x51, 3 * 512 % 2 ^ 32 / 2 ^ 24 % 256,
        3 * 512 % 2 ^ 32 / 2 ^ 16 % 256, 3 * 512 % 2 ^ 32 / 2 ^ 8 % 256,
        3 * 512 % 2 ^ 32 % 256, 0x01] :=
  C5_failed_init_no_gating.2 true 3 0 1 zeroTypeDisk (by decide) rfl

end DE2
